import Mathlib

/-!
Verification of the SymStride running-form analysis frontend.

The functions embedded here are translated from the JavaScript sources:
`calculateSymmetry`, `calculateAsymmetryScore`, `getMockData` and
`simulateRealTimeData` from `src/utils/mockData.js`; `feedbackConfig`,
`getFeedbackForMetric` and `getAsymmetryFeedback` from
`src/utils/feedbackConfig.js`; the rolling live buffer update from
`App.jsx`; and the `FormAnalysis` component head from `FormAnalysis.jsx`.
JavaScript numbers are modelled as exact rationals extended with the
special values `Infinity`, `-Infinity` and `NaN` (the sign of zero is not
tracked; no computation below distinguishes `0` from `-0`).
-/

namespace SymStride

/-- A JavaScript number: a finite value (modelled exactly as a rational),
positive or negative infinity, or `NaN`. -/
inductive JSNum where
  | num (val : ℚ)
  | posInf
  | negInf
  | nan
deriving DecidableEq, Repr

/-- JavaScript addition `a + b` on `JSNum`. -/
def jsAdd : JSNum → JSNum → JSNum
  | .num a, .num b => .num (a + b)
  | .num _, .posInf => .posInf
  | .num _, .negInf => .negInf
  | .posInf, .num _ => .posInf
  | .negInf, .num _ => .negInf
  | .posInf, .posInf => .posInf
  | .negInf, .negInf => .negInf
  | .posInf, .negInf => .nan
  | .negInf, .posInf => .nan
  | _, _ => .nan

/-- JavaScript subtraction `a - b` on `JSNum`. -/
def jsSub : JSNum → JSNum → JSNum
  | .num a, .num b => .num (a - b)
  | .num _, .posInf => .negInf
  | .num _, .negInf => .posInf
  | .posInf, .num _ => .posInf
  | .negInf, .num _ => .negInf
  | .posInf, .posInf => .nan
  | .negInf, .negInf => .nan
  | .posInf, .negInf => .posInf
  | .negInf, .posInf => .negInf
  | _, _ => .nan

/-- JavaScript multiplication `a * b` on `JSNum`. -/
def jsMul : JSNum → JSNum → JSNum
  | .num a, .num b => .num (a * b)
  | .posInf, .num b => if b > 0 then .posInf else if b < 0 then .negInf else .nan
  | .num b, .posInf => if b > 0 then .posInf else if b < 0 then .negInf else .nan
  | .negInf, .num b => if b > 0 then .negInf else if b < 0 then .posInf else .nan
  | .num b, .negInf => if b > 0 then .negInf else if b < 0 then .posInf else .nan
  | .posInf, .posInf => .posInf
  | .negInf, .negInf => .posInf
  | .posInf, .negInf => .negInf
  | .negInf, .posInf => .negInf
  | _, _ => .nan

/-- JavaScript division `a / b` on `JSNum` (a finite zero divisor behaves
as `+0`: `x / 0` is `±Infinity` for `x ≠ 0` and `0 / 0` is `NaN`). -/
def jsDiv : JSNum → JSNum → JSNum
  | .num a, .num b =>
      if b ≠ 0 then .num (a / b)
      else if a > 0 then .posInf
      else if a < 0 then .negInf
      else .nan
  | .num _, .posInf => .num 0
  | .num _, .negInf => .num 0
  | .posInf, .num b => if b ≥ 0 then .posInf else .negInf
  | .negInf, .num b => if b ≥ 0 then .negInf else .posInf
  | .posInf, .posInf => .nan
  | .posInf, .negInf => .nan
  | .negInf, .posInf => .nan
  | .negInf, .negInf => .nan
  | _, _ => .nan

/-- JavaScript `Math.abs`. -/
def jsAbs : JSNum → JSNum
  | .num a => .num |a|
  | .posInf => .posInf
  | .negInf => .posInf
  | .nan => .nan

/-- JavaScript `Math.max` of two numbers: `NaN` if either operand is
`NaN`, the larger operand otherwise. -/
def jsMax : JSNum → JSNum → JSNum
  | .num a, .num b => .num (max a b)
  | .posInf, .num _ => .posInf
  | .num _, .posInf => .posInf
  | .posInf, .posInf => .posInf
  | .negInf, .num b => .num b
  | .num a, .negInf => .num a
  | .negInf, .negInf => .negInf
  | .posInf, .negInf => .posInf
  | .negInf, .posInf => .posInf
  | _, _ => .nan

/-- JavaScript `Math.round` on an exact rational: round to the nearest
integer, halves toward positive infinity. -/
def qRound (q : ℚ) : ℤ := ⌊q + 1 / 2⌋

/-- JavaScript `Math.round` on `JSNum`. -/
def jsRound : JSNum → JSNum
  | .num a => .num ((qRound a : ℤ) : ℚ)
  | .posInf => .posInf
  | .negInf => .negInf
  | .nan => .nan

/-- `calculateSymmetry(left, right)` from `src/utils/mockData.js`:
`diff = Math.abs(left - right)`, `avg = (left + right) / 2`,
`symmetry = Math.max(0, 100 - (diff / avg) * 100)`, returned as
`Math.round(symmetry)`.  There is no special case for `avg == 0`. -/
def calculateSymmetry (left right : JSNum) : JSNum :=
  let diff := jsAbs (jsSub left right)
  let avg := jsDiv (jsAdd left right) (.num 2)
  let symmetry := jsMax (.num 0) (jsSub (.num 100) (jsMul (jsDiv diff avg) (.num 100)))
  jsRound symmetry

/-- The symmetry score exactly as the specification words it:
`max(0, 100 - |l - r| / ((l + r) / 2) * 100)`, rounded to an integer
percentage. -/
def specSymmetry (l r : ℚ) : ℚ :=
  ((qRound (max 0 (100 - |l - r| / ((l + r) / 2) * 100)) : ℤ) : ℚ)

/-- A threshold band from `feedbackConfig`: optional `min` and `max`
bounds (the elbow asymmetry bands carry only `max`) and a fixed message. -/
structure Band where
  min : Option ℚ
  max : Option ℚ
  message : String
deriving DecidableEq, Repr

/-- The nested `asymmetry` object of the `elbow` entry: four bands keyed
by the same first four threshold names. -/
structure AsymmetryConfig where
  excellent : Option Band := none
  good : Option Band := none
  needsImprovement : Option Band := none
  bad : Option Band := none
deriving DecidableEq, Repr

/-- One metric's entry in `feedbackConfig`: the six possible threshold
bands, each present or absent, plus the optional nested asymmetry
configuration (present only for `elbow`). -/
structure MetricConfig where
  excellent : Option Band := none
  good : Option Band := none
  needsImprovement : Option Band := none
  bad : Option Band := none
  tooForward : Option Band := none
  tooBackward : Option Band := none
  asymmetry : Option AsymmetryConfig := none
deriving DecidableEq, Repr

/-- The `frontKnee` entry of `feedbackConfig`. -/
def frontKneeConfig : MetricConfig where
  excellent := some ⟨some 135, some 170, "Excellent front knee angle! You're maintaining optimal form for shock absorption."⟩
  needsImprovement := some ⟨some 126, some 135, "Could be improved. Low running efficiency, aim for over 135 degrees."⟩
  bad := some ⟨some 0, some 126, "Excessive flexion. Low running efficiency and increased risk of injury. Aim for over 135 degrees."⟩

/-- The `backKnee` entry of `feedbackConfig`. -/
def backKneeConfig : MetricConfig where
  excellent := some ⟨some 100, some 116, "Ideal back knee angle! This indicates excellent leg recovery."⟩
  needsImprovement := some ⟨some 117, some 125, "Could be improved. Back knee is too open. Aim for under 116 degrees."⟩
  bad := some ⟨some 125, some 200, "Not enough flexion. Needs more energy to maintain speed, movement amplitude is restricted."⟩

/-- The `elbow` entry of `feedbackConfig`, including the nested
asymmetry configuration. -/
def elbowConfig : MetricConfig where
  excellent := some ⟨some 76, some 86, "Excellent elbow angles! Your arm swing is optimal."⟩
  needsImprovement := some ⟨some 87, some 200, "Needs improvement. Not enough flexion, loss of efficiency. Avoid pushing backward."⟩
  bad := some ⟨some 0, some 76, "Too much flexion. Loss of efficiency, increased risk of injury."⟩
  asymmetry := some
    { excellent := some ⟨none, some 5, "Excellent arm symmetry! Both arms are working in perfect balance."⟩
      good := some ⟨none, some 10, "Good arm symmetry. Minor differences are normal."⟩
      needsImprovement := some ⟨none, some 20, "Your arms show some asymmetry. Focus on balanced arm swing."⟩
      bad := some ⟨none, some 200, "Significant arm asymmetry detected. Work on synchronizing your arm movements."⟩ }

/-- The `backToHead` entry of `feedbackConfig`. -/
def backToHeadConfig : MetricConfig where
  excellent := some ⟨some (-15), some 5, "Perfect posture! Your back-to-head alignment is ideal. Keep your gaze looking forward."⟩
  good := some ⟨some (-18), some (-15), "Good posture. You're maintaining a relatively straight gaze."⟩
  tooForward := some ⟨some 6, some 200, "Your gaze is too focused on the ground, lift gaze to improve posture. Risk of slouched posture."⟩
  tooBackward := some ⟨some (-200), some (-18), "You're gazing at the sky, lower gaze to improve posture. Poor running posture."⟩

/-- The `kneeSymmetry` entry of `feedbackConfig`. -/
def kneeSymmetryConfig : MetricConfig where
  excellent := some ⟨some 90, some 100, "Excellent knee symmetry! Both legs are working equally."⟩
  good := some ⟨some 75, some 90, "Good knee symmetry. Minor differences are normal."⟩
  needsImprovement := some ⟨some 51, some 75, "Your knee angles show asymmetry. Focus on balanced leg movement."⟩
  bad := some ⟨some 0, some 50, "Significant knee asymmetry detected. Consider working on leg strength balance."⟩

/-- `feedbackConfig` from `src/utils/feedbackConfig.js` as a lookup from
metric name to its configuration. -/
def feedbackConfig (name : String) : Option MetricConfig :=
  if name = "frontKnee" then some frontKneeConfig
  else if name = "backKnee" then some backKneeConfig
  else if name = "elbow" then some elbowConfig
  else if name = "backToHead" then some backToHeadConfig
  else if name = "kneeSymmetry" then some kneeSymmetryConfig
  else none

/-- The `checkRange` closure inside `getFeedbackForMetric`: false when the
band is absent or its `min` or `max` is undefined, the inclusive range
test otherwise. -/
def checkRange (threshold : Option Band) (value : ℚ) : Bool :=
  match threshold with
  | none => false
  | some b =>
    match b.min, b.max with
    | some lo, some hi => decide (lo ≤ value) && decide (value ≤ hi)
    | _, _ => false

/-- The message of an optional band (`""` when absent; in the source every
read of `.message` is guarded by a successful `checkRange`, which requires
the band to be present). -/
def bandMessage : Option Band → String
  | some b => b.message
  | none => ""

/-- The feedback object returned by `getFeedbackForMetric` and
`getAsymmetryFeedback`: `type`, the matched threshold name (absent on the
`info` path), the message, and the echoed value (absent on the `info`
path). -/
structure Feedback where
  type : String
  threshold : Option String := none
  message : String
  value : Option ℚ := none
deriving DecidableEq, Repr

/-- `getFeedbackForMetric(metricType, value)` from
`src/utils/feedbackConfig.js`, with the default `config = feedbackConfig`
inlined (every caller in the repository uses the default). -/
def getFeedbackForMetric (metricType : String) (value : ℚ) : Feedback :=
  match feedbackConfig metricType with
  | none => { type := "info", message := s!"No feedback available for {metricType}" }
  | some metricConfig =>
    if checkRange metricConfig.excellent value then
      { type := "excellent", threshold := some "excellent",
        message := bandMessage metricConfig.excellent, value := some value }
    else if checkRange metricConfig.good value then
      { type := "good", threshold := some "good",
        message := bandMessage metricConfig.good, value := some value }
    else if checkRange metricConfig.needsImprovement value then
      { type := "needsImprovement", threshold := some "needsImprovement",
        message := bandMessage metricConfig.needsImprovement, value := some value }
    else if checkRange metricConfig.bad value then
      { type := "bad", threshold := some "bad",
        message := bandMessage metricConfig.bad, value := some value }
    else if checkRange metricConfig.tooForward value then
      { type := "bad", threshold := some "tooForward",
        message := bandMessage metricConfig.tooForward, value := some value }
    else if checkRange metricConfig.tooBackward value then
      { type := "bad", threshold := some "tooBackward",
        message := bandMessage metricConfig.tooBackward, value := some value }
    else
      { type := "needsImprovement", threshold := some "needsImprovement",
        message := "No specific feedback available", value := some value }

/-- The threshold names in the priority order the source checks them. -/
def bandPriority : List String :=
  ["excellent", "good", "needsImprovement", "bad", "tooForward", "tooBackward"]

/-- The band a metric configuration declares under a threshold name. -/
def thresholdBand (mc : MetricConfig) : String → Option Band
  | "excellent" => mc.excellent
  | "good" => mc.good
  | "needsImprovement" => mc.needsImprovement
  | "bad" => mc.bad
  | "tooForward" => mc.tooForward
  | "tooBackward" => mc.tooBackward
  | _ => none

/-- The first threshold name, in priority order, whose band contains the
value — the classification the specification describes. -/
def firstMatchingBand (mc : MetricConfig) (value : ℚ) : Option String :=
  bandPriority.find? fun t => checkRange (thresholdBand mc t) value

/-- The four-band view the duck-typed `asymmetryConfig` value takes when
`config[metricType].asymmetry` is absent and `config[metricType]` itself
is used (only the shared band fields are ever read on that path). -/
def MetricConfig.asAsymmetry (mc : MetricConfig) : AsymmetryConfig :=
  ⟨mc.excellent, mc.good, mc.needsImprovement, mc.bad⟩

/-- The `value <= diffConfig.<band>.max` test of the difference branch of
`getAsymmetryFeedback`; a band with no `max` compares as false (in
JavaScript `value <= undefined` is false). -/
def leMax (value : ℚ) (b : Option Band) : Bool :=
  match b with
  | some bb =>
    match bb.max with
    | some m => decide (value ≤ m)
    | none => false
  | none => false

/-- `getAsymmetryFeedback(metricType, value)` from
`src/utils/feedbackConfig.js`, with the default `config = feedbackConfig`
inlined.  For `kneeSymmetry` the classification uses the hard-coded
thresholds `90`, `75`, `50`; for every other metric the difference branch
compares against each band's `max` in order. -/
def getAsymmetryFeedback (metricType : String) (value : ℚ) : Feedback :=
  match feedbackConfig metricType with
  | none => { type := "info", message := s!"No asymmetry feedback for {metricType}" }
  | some mc =>
    let asymmetryConfig : AsymmetryConfig :=
      match mc.asymmetry with
      | some a => a
      | none => mc.asAsymmetry
    if metricType = "kneeSymmetry" then
      if value ≥ 90 then
        { type := "excellent", threshold := some "excellent",
          message := bandMessage asymmetryConfig.excellent, value := some value }
      else if value ≥ 75 then
        { type := "good", threshold := some "good",
          message := bandMessage asymmetryConfig.good, value := some value }
      else if value ≥ 50 then
        { type := "needsImprovement", threshold := some "needsImprovement",
          message := bandMessage asymmetryConfig.needsImprovement, value := some value }
      else
        { type := "bad", threshold := some "bad",
          message := bandMessage asymmetryConfig.bad, value := some value }
    else
      if leMax value asymmetryConfig.excellent then
        { type := "excellent", threshold := some "excellent",
          message := bandMessage asymmetryConfig.excellent, value := some value }
      else if leMax value asymmetryConfig.good then
        { type := "good", threshold := some "good",
          message := bandMessage asymmetryConfig.good, value := some value }
      else if leMax value asymmetryConfig.needsImprovement then
        { type := "needsImprovement", threshold := some "needsImprovement",
          message := bandMessage asymmetryConfig.needsImprovement, value := some value }
      else
        { type := "bad", threshold := some "bad",
          message := bandMessage asymmetryConfig.bad, value := some value }

/-- JavaScript `array.slice(-n)`: the last `n` elements of the array (the
whole array when it is shorter than `n`). -/
def sliceLast (n : ℕ) (l : List α) : List α := l.drop (l.length - n)

/-- One step of the rolling live buffer from `App.jsx`:
`setRealTimeSeries(prev => [...prev, message].slice(-300))` (the WebSocket
variant appends a wrapped `{timestamp, jointAngles}` entry instead of the
raw message, with the same buffer discipline, so the entry type is left
generic). -/
def pushFrame (prev : List α) (message : α) : List α :=
  sliceLast 300 (prev ++ [message])

/-- The buffer contents after a sequence of received frames, starting
from the initial empty `realTimeSeries` state. -/
def realTimeSeriesAfter (msgs : List α) : List α :=
  msgs.foldl pushFrame []

/-- An `{angle, side}` pair, as in the `frontKnee` and `backKnee` entries
of a live frame. -/
structure AngleSide where
  angle : ℚ
  side : String
deriving DecidableEq, Repr

/-- The `backToHead` entry: tilt angle and spine curvature. -/
structure BackToHead where
  angle : ℚ
  spineCurvature : ℚ
deriving DecidableEq, Repr

/-- A `{left, right, symmetry}` triple, as in the `elbow` and `knee`
entries. -/
structure SymPair where
  left : ℚ
  right : ℚ
  symmetry : JSNum
deriving DecidableEq, Repr

/-- A bare `{left, right}` pair, the shape `calculateAsymmetryScore`
reads. -/
structure LRPair where
  left : ℚ
  right : ℚ
deriving DecidableEq, Repr

/-- The `{knee, elbow}` argument of `calculateAsymmetryScore`. -/
structure AnglePairs where
  knee : LRPair
  elbow : LRPair
deriving DecidableEq, Repr

/-- `calculateAsymmetryScore(jointAngles)` from `src/utils/mockData.js`
(the repository copy under `src/utils/` used by `getMockData` and
`simulateRealTimeData`): the mean of the knee and elbow left/right
absolute differences. -/
def calculateAsymmetryScore (jointAngles : AnglePairs) : ℚ :=
  let kneeDiff := |jointAngles.knee.left - jointAngles.knee.right|
  let elbowDiff := |jointAngles.elbow.left - jointAngles.elbow.right|
  (kneeDiff + elbowDiff) / 2

/-- The random draws one iteration of `generateTimeSeriesData` (or one
call of `simulateRealTimeData`) consumes: the knee `variation`
(`Math.sin(i / 20) * 3` plus noise, taken as an opaque input), the elbow
variation, the head variation, and the spine-curvature noise. -/
structure FrameDraw where
  variation : ℚ
  elbowVar : ℚ
  headVar : ℚ
  spineVar : ℚ
deriving DecidableEq, Repr

/-- The per-frame `jointAngles` record both `generateTimeSeriesData` and
`simulateRealTimeData` build. -/
structure JointAngleSet where
  frontKnee : AngleSide
  backKnee : AngleSide
  elbow : SymPair
  backToHead : BackToHead
  knee : SymPair
deriving DecidableEq, Repr

/-- One entry of the generated time series. -/
structure TSEntry where
  timestamp : ℕ
  jointAngles : JointAngleSet
deriving DecidableEq, Repr

/-- The body of the `generateTimeSeriesData` loop at index `i` with draws
`d`, over the base angles `frontKnee 160, backKnee 145, elbow 90/90,
backToHead 0`. -/
def generateTimeSeriesEntry (i : ℕ) (d : FrameDraw) : TSEntry where
  timestamp := i
  jointAngles :=
    { frontKnee := ⟨160 + d.variation, if d.variation > 0 then "left" else "right"⟩
      backKnee := ⟨145 - d.variation * 0.5, if d.variation > 0 then "right" else "left"⟩
      elbow := ⟨90 + d.elbowVar, 90 - d.elbowVar,
        calculateSymmetry (.num (90 + d.elbowVar)) (.num (90 - d.elbowVar))⟩
      backToHead := ⟨0 + d.headVar, 10 + d.spineVar⟩
      knee := ⟨160 + d.variation, 145 - d.variation * 0.5,
        calculateSymmetry (.num (160 + d.variation)) (.num (145 - d.variation * 0.5))⟩ }

/-- The `for` loop of `generateTimeSeriesData`: one entry per draw, the
timestamp counting up from `i`. -/
def generateTimeSeriesGo (i : ℕ) : List FrameDraw → List TSEntry
  | [] => []
  | d :: ds => generateTimeSeriesEntry i d :: generateTimeSeriesGo (i + 1) ds

/-- `generateTimeSeriesData`, parameterized by the list of per-iteration
random draws (`getMockData` calls it with 300 iterations). -/
def generateTimeSeriesData (draws : List FrameDraw) : List TSEntry :=
  generateTimeSeriesGo 0 draws

/-- The averaged `jointAngles` record `getMockData` returns (`min`/`max`
are the average plus or minus 5 in the source). -/
structure MockJointAngles where
  frontKnee : AngleSide
  backKnee : AngleSide
  backToHead : BackToHead
  elbow : SymPair
  knee : SymPair
deriving DecidableEq, Repr

/-- The fields of the `getMockData` result the claims reason about.  The
purely presentational fields (`strideSymmetry`, `runDuration`,
`formAnalysis`, `recommendations`, `insights`, the `min`/`max` bounds），
which consume independent random draws, are omitted. -/
structure MockReport where
  overallSymmetry : JSNum
  asymmetryScore : ℚ
  jointAngles : MockJointAngles
  timeSeriesData : List TSEntry
deriving DecidableEq, Repr

/-- `getMockData()` from `src/utils/mockData.js`, parameterized by the
random draws of its time series.  Averages are `reduce`-sums divided by
the series length (the source always uses 300 frames, so the length is
never zero there; with an empty series JavaScript would produce `NaN`
where this model produces `0`). -/
def getMockData (draws : List FrameDraw) : MockReport :=
  let timeSeriesData := generateTimeSeriesData draws
  let len : ℚ := (timeSeriesData.length : ℚ)
  let avgFrontKnee :=
    (timeSeriesData.foldl (fun sum d => sum + d.jointAngles.frontKnee.angle) 0) / len
  let avgBackKnee :=
    (timeSeriesData.foldl (fun sum d => sum + d.jointAngles.backKnee.angle) 0) / len
  let avgKneeLeft :=
    (timeSeriesData.foldl (fun sum d => sum + d.jointAngles.knee.left) 0) / len
  let avgKneeRight :=
    (timeSeriesData.foldl (fun sum d => sum + d.jointAngles.knee.right) 0) / len
  let avgElbowLeft :=
    (timeSeriesData.foldl (fun sum d => sum + d.jointAngles.elbow.left) 0) / len
  let avgElbowRight :=
    (timeSeriesData.foldl (fun sum d => sum + d.jointAngles.elbow.right) 0) / len
  let avgBackToHead :=
    (timeSeriesData.foldl (fun sum d => sum + d.jointAngles.backToHead.angle) 0) / len
  let avgSpineCurvature :=
    (timeSeriesData.foldl (fun sum d => sum + d.jointAngles.backToHead.spineCurvature) 0) / len
  let jointAngles : MockJointAngles :=
    { frontKnee := ⟨avgFrontKnee, "left"⟩
      backKnee := ⟨avgBackKnee, "right"⟩
      backToHead := ⟨avgBackToHead, avgSpineCurvature⟩
      elbow := ⟨avgElbowLeft, avgElbowRight,
        calculateSymmetry (.num avgElbowLeft) (.num avgElbowRight)⟩
      knee := ⟨avgKneeLeft, avgKneeRight,
        calculateSymmetry (.num avgKneeLeft) (.num avgKneeRight)⟩ }
  let asymmetryScore := calculateAsymmetryScore
    ⟨⟨avgKneeLeft, avgKneeRight⟩, ⟨avgElbowLeft, avgElbowRight⟩⟩
  let overallSymmetry :=
    jsRound (jsDiv (jsAdd jointAngles.knee.symmetry jointAngles.elbow.symmetry) (.num 2))
  { overallSymmetry, asymmetryScore, jointAngles, timeSeriesData }

/-- The fields of the `simulateRealTimeData` result the claims reason
about (the presentational `strideSymmetry`, `timestamp` and
`formAnalysis` fields, which consume independent random draws, are
omitted). -/
structure RTFrame where
  overallSymmetry : JSNum
  asymmetryScore : ℚ
  jointAngles : JointAngleSet
deriving DecidableEq, Repr

/-- `simulateRealTimeData()` from `src/utils/mockData.js`, parameterized
by its four random draws. -/
def simulateRealTimeData (variation elbowVar headVar spineVar : ℚ) : RTFrame :=
  let frontKnee := 160 + variation
  let backKnee := 145 - variation * 0.5
  let jointAngles : JointAngleSet :=
    { frontKnee := ⟨frontKnee, if variation > 0 then "left" else "right"⟩
      backKnee := ⟨backKnee, if variation > 0 then "right" else "left"⟩
      backToHead := ⟨0 + headVar, 10 + spineVar⟩
      elbow := ⟨90 + elbowVar, 90 - elbowVar,
        calculateSymmetry (.num (90 + elbowVar)) (.num (90 - elbowVar))⟩
      knee := ⟨frontKnee, backKnee, calculateSymmetry (.num frontKnee) (.num backKnee)⟩ }
  let asymmetryScore := calculateAsymmetryScore
    ⟨⟨jointAngles.knee.left, jointAngles.knee.right⟩,
      ⟨jointAngles.elbow.left, jointAngles.elbow.right⟩⟩
  let overallSymmetry :=
    jsRound (jsDiv (jsAdd jointAngles.knee.symmetry jointAngles.elbow.symmetry) (.num 2))
  { overallSymmetry, asymmetryScore, jointAngles }

/-- A JavaScript runtime error surfaced by a component. -/
inductive JSError where
  | referenceError (name : String)
deriving DecidableEq, Repr

/-- The render outcomes of the `FormAnalysis` component: the two early
empty-state returns and the full render. -/
inductive FormAnalysisRender where
  | noData
  | noFormAnalysisData
  | rendered
deriving DecidableEq, Repr

/-- The shape of the `data` / `realTimeData` props as far as
`FormAnalysis` inspects them: an object that may carry a `formAnalysis`
payload. -/
structure PageData (α : Type) where
  formAnalysis : Option α

/-- The top-level bindings of the `FormAnalysis.jsx` module scope: the
`React` import and the component itself (the CSS import adds no binding).
`convertSessionAveragesToFormAnalysis` is not among them and is defined
nowhere else in the module, so referencing it throws. -/
def formAnalysisModuleBindings : List String := ["React", "FormAnalysis"]

/-- The `FormAnalysis` component from `FormAnalysis.jsx`: when
`sessionAverages` is non-null the very first expression evaluates
`convertSessionAveragesToFormAnalysis(sessionAverages)`; the call
resolves only if the module scope binds that name, and otherwise throws a
`ReferenceError` (the successful branch is unreachable because the module
defines no such binding, so its `rendered` placeholder is never
produced).  Otherwise the component renders `realTimeData || data` with
the two empty-state fallbacks of the source. -/
def FormAnalysis {α β : Type} (data realTimeData : Option (PageData α))
    (sessionAverages : Option β) : Except JSError FormAnalysisRender :=
  match sessionAverages with
  | some _ =>
    if formAnalysisModuleBindings.contains "convertSessionAveragesToFormAnalysis" then
      .ok .rendered
    else
      .error (.referenceError "convertSessionAveragesToFormAnalysis")
  | none =>
    match realTimeData.orElse (fun _ => data) with
    | none => .ok .noData
    | some dd =>
      match dd.formAnalysis with
      | none => .ok .noFormAnalysisData
      | some _ => .ok .rendered

/-- A device stream as the temporal-alignment contract sees it: its first
and last sample times on the common absolute-seconds basis.

Modelled from the spec: the Temporal Alignment Engine (`process_own.py`
of the ML backend) is not part of the repository snapshot; only the
specification and the project report describe it. -/
structure DeviceStream where
  firstTime : ℚ
  lastTime : ℚ
deriving DecidableEq, Repr

/-- Modelled from the spec: the alignment error taxonomy. -/
inductive AlignmentError where
  | NoOverlap
  | InsufficientDeviceCoverage
deriving DecidableEq, Repr

/-- Modelled from the spec: the overlap-window start,
`max(first sample time per device)` over the (nonempty) device list. -/
def overlapStart (d : DeviceStream) (ds : List DeviceStream) : ℚ :=
  ds.foldl (fun a s => max a s.firstTime) d.firstTime

/-- Modelled from the spec: the overlap-window end,
`min(last sample time per device)`. -/
def overlapEnd (d : DeviceStream) (ds : List DeviceStream) : ℚ :=
  ds.foldl (fun a s => min a s.lastTime) d.lastTime

/-- Modelled from the spec: the temporal-alignment pass.  It fails with
`NoOverlap` when the overlap window is empty or narrower than one output
frame (`1 / rate`), and otherwise emits uniform sample instants at
`rate` Hz from the overlap start, one per output frame, covering the
overlap half-openly so that a window of exactly one second at 100 Hz
yields exactly 100 instants. -/
def alignStreams (d : DeviceStream) (ds : List DeviceStream) (rate : ℚ) :
    Except AlignmentError (List ℚ) :=
  let start := overlapStart d ds
  let stop := overlapEnd d ds
  if stop - start < 1 / rate then .error .NoOverlap
  else
    .ok ((List.range ⌈(stop - start) * rate⌉.toNat).map
      fun k : ℕ => start + (k : ℚ) / rate)

/-- C1: for every left/right pair `(l, r)` with `l + r > 0`, the symmetry
score computed by `calculateSymmetry(l, r)` equals
`max(0, 100 - |l - r| / ((l + r) / 2) * 100)` rounded to an integer
percentage. -/
theorem calculateSymmetry_eq_spec (l r : ℚ) (h : 0 < l + r) :
    calculateSymmetry (.num l) (.num r) = .num (specSymmetry l r) := by
  have h2 : ((l + r) / 2 : ℚ) ≠ 0 := by
    have hp : (0 : ℚ) < (l + r) / 2 := by linarith
    exact hp.ne'
  simp [calculateSymmetry, jsAdd, jsSub, jsAbs, jsDiv, jsMul, jsMax, jsRound,
    specSymmetry, h2]

/-- Witness for C1 at the concrete pair `(3, 1)`. -/
theorem calculateSymmetry_eq_spec_witness :
    (0 : ℚ) < 3 + 1 ∧
      calculateSymmetry (.num 3) (.num 1) = .num (specSymmetry 3 1) :=
  ⟨by norm_num, calculateSymmetry_eq_spec 3 1 (by norm_num)⟩

/-- C2 counterexample: at the pair `(0, 0)` the code computes `0 / 0`,
which is `NaN` in JavaScript, and `Math.max` and `Math.round` propagate it,
so `calculateSymmetry(0, 0)` is `NaN`, not `100`. -/
theorem calculateSymmetry_zero_zero_nan :
    calculateSymmetry (.num 0) (.num 0) = JSNum.nan ∧
      calculateSymmetry (.num 0) (.num 0) ≠ .num 100 := by
  have he : calculateSymmetry (.num 0) (.num 0) = JSNum.nan := by
    norm_num [calculateSymmetry, jsAdd, jsSub, jsAbs, jsDiv, jsMul, jsMax, jsRound]
  exact ⟨he, by rw [he]; exact fun hc => JSNum.noConfusion hc⟩

/-- C2 amended: for all `(l, r)` with `l == r` and `l + r ≠ 0`,
`calculateSymmetry(l, r) == 100`; at the pair `(0, 0)` the code divides
`0` by `0` and returns `NaN` rather than `100`. -/
theorem calculateSymmetry_self_eq_100 (l : ℚ) (h : l + l ≠ 0) :
    calculateSymmetry (.num l) (.num l) = .num 100 := by
  have hl : (l : ℚ) ≠ 0 := fun h0 => h (by rw [h0]; ring)
  have h2 : ((l + l) / 2 : ℚ) ≠ 0 := by
    intro hc
    apply hl
    have := (div_eq_zero_iff.mp hc).resolve_right (by norm_num)
    linarith
  simp [calculateSymmetry, jsAdd, jsSub, jsAbs, jsDiv, jsMul, jsMax, jsRound, hl, h2, qRound]
  norm_num

/-- Witness for the amended C2 at `l = r = 5`. -/
theorem calculateSymmetry_self_eq_100_witness :
    (5 : ℚ) + 5 ≠ 0 ∧ calculateSymmetry (.num 5) (.num 5) = .num 100 :=
  ⟨by norm_num, calculateSymmetry_self_eq_100 5 (by norm_num)⟩

/-- C3 counterexample: `calculateSymmetry(150, 170)` is `88`, not `87`:
`100 - (20 / 160 * 100) = 87.5` and JavaScript `Math.round` rounds halves
up, so the result is `88`. -/
theorem calculateSymmetry_150_170_ne_87 :
    calculateSymmetry (.num 150) (.num 170) = .num 88 ∧
      calculateSymmetry (.num 150) (.num 170) ≠ .num 87 := by
  have he : calculateSymmetry (.num 150) (.num 170) = .num 88 := by
    norm_num [calculateSymmetry, jsAdd, jsSub, jsAbs, jsDiv, jsMul, jsMax,
      jsRound, qRound, max_def]
  exact ⟨he, by rw [he]; norm_num⟩

/-- C3 amended: `calculateSymmetry(160, 160) = 100`, and
`calculateSymmetry(150, 170) = 88` (the exact value `87.5` rounds up). -/
theorem calculateSymmetry_scenarioC :
    calculateSymmetry (.num 160) (.num 160) = .num 100 ∧
      calculateSymmetry (.num 150) (.num 170) = .num 88 := by
  refine ⟨?_, ?_⟩ <;>
    norm_num [calculateSymmetry, jsAdd, jsSub, jsAbs, jsDiv, jsMul, jsMax,
      jsRound, qRound, max_def]

/-- C4: for every metric type present in `feedbackConfig` and every
value, `getFeedbackForMetric` checks the bands in the strict priority
order excellent, good, needsImprovement, bad, tooForward, tooBackward and
returns the first band whose `[min, max]` range contains the value; if no
band contains the value it returns the `needsImprovement` fallback with
the generic message rather than no feedback. -/
theorem getFeedbackForMetric_first_band (name : String) (mc : MetricConfig)
    (v : ℚ) (h : feedbackConfig name = some mc) :
    (∀ t, firstMatchingBand mc v = some t →
      (getFeedbackForMetric name v).threshold = some t ∧
        (getFeedbackForMetric name v).message = bandMessage (thresholdBand mc t)) ∧
      (firstMatchingBand mc v = none →
        getFeedbackForMetric name v =
          { type := "needsImprovement", threshold := some "needsImprovement",
            message := "No specific feedback available", value := some v }) := by
  by_cases h1 : checkRange mc.excellent v <;>
  by_cases h2 : checkRange mc.good v <;>
  by_cases h3 : checkRange mc.needsImprovement v <;>
  by_cases h4 : checkRange mc.bad v <;>
  by_cases h5 : checkRange mc.tooForward v <;>
  by_cases h6 : checkRange mc.tooBackward v <;>
    simp [getFeedbackForMetric, h, firstMatchingBand, bandPriority, List.find?,
      thresholdBand, h1, h2, h3, h4, h5, h6, bandMessage]

/-- Witness for C4: `frontKnee` at exactly `135` lies in both the
excellent band `[135, 170]` and the needsImprovement band `[126, 135]`,
and the higher-priority excellent band wins; `backKnee` at `116.5`
(strictly between `116` and `117`) lies in no band and falls back to the
generic needsImprovement feedback. -/
theorem getFeedbackForMetric_first_band_witness :
    feedbackConfig "frontKnee" = some frontKneeConfig ∧
      firstMatchingBand frontKneeConfig 135 = some "excellent" ∧
      (getFeedbackForMetric "frontKnee" 135).threshold = some "excellent" ∧
      (getFeedbackForMetric "frontKnee" 135).message =
        bandMessage (thresholdBand frontKneeConfig "excellent") ∧
      feedbackConfig "backKnee" = some backKneeConfig ∧
      firstMatchingBand backKneeConfig (233 / 2) = none ∧
      getFeedbackForMetric "backKnee" (233 / 2) =
        { type := "needsImprovement", threshold := some "needsImprovement",
          message := "No specific feedback available", value := some (233 / 2) } := by
  have hcfg : feedbackConfig "frontKnee" = some frontKneeConfig := rfl
  have hfind : firstMatchingBand frontKneeConfig 135 = some "excellent" := by
    norm_num [firstMatchingBand, bandPriority, List.find?, thresholdBand,
      frontKneeConfig, checkRange]
  have happ :=
    (getFeedbackForMetric_first_band "frontKnee" frontKneeConfig 135 hcfg).1
      "excellent" hfind
  have hcfg2 : feedbackConfig "backKnee" = some backKneeConfig := rfl
  have hfind2 : firstMatchingBand backKneeConfig (233 / 2) = none := by
    norm_num [firstMatchingBand, bandPriority, List.find?, thresholdBand,
      backKneeConfig, checkRange]
  have happ2 :=
    (getFeedbackForMetric_first_band "backKnee" backKneeConfig (233 / 2) hcfg2).2
      hfind2
  exact ⟨hcfg, hfind, happ.1, happ.2, hcfg2, hfind2, happ2⟩

/-- C10: `getAsymmetryFeedback` for `kneeSymmetry` classifies by the
hard-coded thresholds (`≥ 90` excellent, `≥ 75` good, `≥ 50`
needsImprovement, otherwise bad), so the boundary value `50` is classified
needsImprovement even though the declared configuration places `50` inside
the bad band `[0, 50]` and starts needsImprovement at `51`. -/
theorem getAsymmetryFeedback_kneeSymmetry_thresholds (v : ℚ) :
    (getAsymmetryFeedback "kneeSymmetry" v).type =
      (if 90 ≤ v then "excellent"
        else if 75 ≤ v then "good"
        else if 50 ≤ v then "needsImprovement"
        else "bad") ∧
      (getAsymmetryFeedback "kneeSymmetry" 50).type = "needsImprovement" ∧
      checkRange kneeSymmetryConfig.bad 50 = true ∧
      kneeSymmetryConfig.needsImprovement.bind Band.min = some 51 := by
  refine ⟨?_,
    by simp [getAsymmetryFeedback, feedbackConfig, kneeSymmetryConfig, bandMessage]
       norm_num,
    by norm_num [checkRange, kneeSymmetryConfig],
    by simp [kneeSymmetryConfig]⟩
  simp only [getAsymmetryFeedback, feedbackConfig, ge_iff_le]
  norm_num
  split_ifs <;> simp_all

/-- C6: for all pairs `(l, r)` of JavaScript numbers (the special values
included), `calculateSymmetry(l, r) == calculateSymmetry(r, l)`. -/
theorem calculateSymmetry_comm (l r : JSNum) :
    calculateSymmetry l r = calculateSymmetry r l := by
  cases l <;> cases r <;>
    simp [calculateSymmetry, jsAdd, jsSub, jsAbs, abs_sub_comm, add_comm]

/-- `sliceLast` through `reverse` and `take`. -/
theorem sliceLast_eq_reverse_take (n : ℕ) (l : List α) :
    sliceLast n l = (l.reverse.take n).reverse := by
  rw [sliceLast, List.take_reverse, List.reverse_reverse]

/-- Appending one element to an already-clamped buffer and clamping again
is the same as clamping the full history. -/
theorem pushFrame_sliceLast (l : List α) (m : α) :
    pushFrame (sliceLast 300 l) m = sliceLast 300 (l ++ [m]) := by
  rw [pushFrame]
  simp only [sliceLast_eq_reverse_take, List.reverse_append, List.reverse_reverse,
    List.reverse_cons, List.reverse_nil, List.nil_append, List.singleton_append]
  congr 1
  rw [show (300 : ℕ) = 299 + 1 by norm_num]
  rw [List.take_succ_cons, List.take_succ_cons, List.take_take]
  norm_num

/-- Folding the buffer update over a message history, starting from any
clamped state. -/
theorem foldl_pushFrame (msgs : List α) :
    ∀ acc : List α,
      msgs.foldl pushFrame (sliceLast 300 acc) = sliceLast 300 (acc ++ msgs) := by
  induction msgs with
  | nil => intro acc; simp
  | cons m ms ih =>
    intro acc
    rw [List.foldl_cons, pushFrame_sliceLast, ih (acc ++ [m])]
    simp

/-- C5: after any sequence of received frames the rolling live buffer is
exactly the last 300 frames of the history in arrival order (a suffix of
the arrival sequence), hence it holds at most 300 entries and on overflow
the oldest entry is the one dropped. -/
theorem realTimeSeries_rolling_buffer (msgs : List α) :
    realTimeSeriesAfter msgs = sliceLast 300 msgs ∧
      realTimeSeriesAfter msgs <:+ msgs ∧
      (realTimeSeriesAfter msgs).length = min msgs.length 300 ∧
      (realTimeSeriesAfter msgs).length ≤ 300 := by
  have he : realTimeSeriesAfter msgs = sliceLast 300 msgs := by
    have h0 : (List.nil : List α) = sliceLast 300 [] := by simp [sliceLast]
    rw [realTimeSeriesAfter, h0, foldl_pushFrame msgs [], List.nil_append]
  have hlen : (sliceLast 300 msgs).length = min msgs.length 300 := by
    rw [sliceLast, List.length_drop]
    omega
  refine ⟨he, ?_, by rw [he, hlen], by rw [he, hlen]; omega⟩
  rw [he, sliceLast]
  exact List.drop_suffix _ _

/-- C8: in every frame produced by `getMockData` and
`simulateRealTimeData`, `asymmetryScore` is the mean of the knee and
elbow left/right absolute differences of that frame, and
`overallSymmetry` is the rounded mean of that frame's knee and elbow
symmetry scores. -/
theorem aggregate_scores_def (draws : List FrameDraw) (v e hd s : ℚ)
    (a b c d : ℚ)
    (hka : (getMockData draws).jointAngles.knee.symmetry = .num a)
    (hea : (getMockData draws).jointAngles.elbow.symmetry = .num b)
    (hkb : (simulateRealTimeData v e hd s).jointAngles.knee.symmetry = .num c)
    (heb : (simulateRealTimeData v e hd s).jointAngles.elbow.symmetry = .num d) :
    (getMockData draws).asymmetryScore =
      (|(getMockData draws).jointAngles.knee.left -
          (getMockData draws).jointAngles.knee.right| +
        |(getMockData draws).jointAngles.elbow.left -
          (getMockData draws).jointAngles.elbow.right|) / 2 ∧
      (getMockData draws).overallSymmetry = .num ((qRound ((a + b) / 2) : ℤ) : ℚ) ∧
      (simulateRealTimeData v e hd s).asymmetryScore =
        (|(simulateRealTimeData v e hd s).jointAngles.knee.left -
            (simulateRealTimeData v e hd s).jointAngles.knee.right| +
          |(simulateRealTimeData v e hd s).jointAngles.elbow.left -
            (simulateRealTimeData v e hd s).jointAngles.elbow.right|) / 2 ∧
      (simulateRealTimeData v e hd s).overallSymmetry =
        .num ((qRound ((c + d) / 2) : ℤ) : ℚ) := by
  refine ⟨?_, ?_, ?_, ?_⟩
  · simp [getMockData, calculateAsymmetryScore]
  · have hov : (getMockData draws).overallSymmetry =
        jsRound (jsDiv (jsAdd (getMockData draws).jointAngles.knee.symmetry
          (getMockData draws).jointAngles.elbow.symmetry) (.num 2)) := rfl
    rw [hov, hka, hea]
    norm_num [jsAdd, jsDiv, jsRound]
  · simp [simulateRealTimeData, calculateAsymmetryScore]
  · have hov : (simulateRealTimeData v e hd s).overallSymmetry =
        jsRound (jsDiv (jsAdd (simulateRealTimeData v e hd s).jointAngles.knee.symmetry
          (simulateRealTimeData v e hd s).jointAngles.elbow.symmetry) (.num 2)) := rfl
    rw [hov, hkb, heb]
    norm_num [jsAdd, jsDiv, jsRound]

/-- Witness for C8 with the single zero draw: the knee pair averages to
`(160, 145)` with symmetry score `90`, the elbow pair to `(90, 90)` with
score `100`, and the aggregates follow the stated formulas
(`overallSymmetry = round(190 / 2) = 95`). -/
theorem aggregate_scores_def_witness :
    (getMockData [⟨0, 0, 0, 0⟩]).jointAngles.knee.symmetry = .num 90 ∧
      (getMockData [⟨0, 0, 0, 0⟩]).jointAngles.elbow.symmetry = .num 100 ∧
      (simulateRealTimeData 0 0 0 0).jointAngles.knee.symmetry = .num 90 ∧
      (simulateRealTimeData 0 0 0 0).jointAngles.elbow.symmetry = .num 100 ∧
      (getMockData [⟨0, 0, 0, 0⟩]).overallSymmetry = .num 95 ∧
      (simulateRealTimeData 0 0 0 0).overallSymmetry = .num 95 := by
  have hts : generateTimeSeriesData [⟨0, 0, 0, 0⟩] =
      [generateTimeSeriesEntry 0 ⟨0, 0, 0, 0⟩] := rfl
  have h1 : (getMockData [⟨0, 0, 0, 0⟩]).jointAngles.knee.symmetry = .num 90 := by
    norm_num [getMockData, hts, generateTimeSeriesEntry,
      calculateSymmetry, jsAdd, jsSub, jsAbs, jsDiv, jsMul, jsMax,
      jsRound, qRound, max_def]
  have h2 : (getMockData [⟨0, 0, 0, 0⟩]).jointAngles.elbow.symmetry = .num 100 := by
    norm_num [getMockData, hts, generateTimeSeriesEntry,
      calculateSymmetry, jsAdd, jsSub, jsAbs, jsDiv, jsMul, jsMax,
      jsRound, qRound, max_def]
  have h3 : (simulateRealTimeData 0 0 0 0).jointAngles.knee.symmetry = .num 90 := by
    norm_num [simulateRealTimeData, calculateSymmetry, jsAdd, jsSub, jsAbs,
      jsDiv, jsMul, jsMax, jsRound, qRound, max_def]
  have h4 : (simulateRealTimeData 0 0 0 0).jointAngles.elbow.symmetry = .num 100 := by
    norm_num [simulateRealTimeData, calculateSymmetry, jsAdd, jsSub, jsAbs,
      jsDiv, jsMul, jsMax, jsRound, qRound, max_def]
  have happ := aggregate_scores_def [⟨0, 0, 0, 0⟩] 0 0 0 0 90 100 90 100 h1 h2 h3 h4
  refine ⟨h1, h2, h3, h4, ?_, ?_⟩
  · rw [happ.2.1]; norm_num [qRound]
  · rw [happ.2.2.2]; norm_num [qRound]

/-- C9: whenever `FormAnalysis` is given a non-null `sessionAverages`
input, its evaluation references the undefined
`convertSessionAveragesToFormAnalysis` and fails with a `ReferenceError`
instead of displaying the session averages. -/
theorem formAnalysis_sessionAverages_referenceError {α β : Type}
    (data realTimeData : Option (PageData α)) (sa : β) :
    FormAnalysis data realTimeData (some sa) =
      .error (.referenceError "convertSessionAveragesToFormAnalysis") := by
  simp [FormAnalysis, formAnalysisModuleBindings, List.contains]

/-- C7: aligning two device streams whose overlap window is exactly one
second at 100 Hz yields exactly 100 frames, all inside the computed
overlap; and whenever the overlap window is empty or narrower than one
output frame, alignment fails with `NoOverlap`. -/
theorem alignStreams_scenarioA :
    (∀ d₁ d₂ : DeviceStream,
      overlapEnd d₁ [d₂] - overlapStart d₁ [d₂] = 1 →
      alignStreams d₁ [d₂] 100 =
          .ok ((List.range 100).map fun k : ℕ => overlapStart d₁ [d₂] + (k : ℚ) / 100) ∧
        ((List.range 100).map
          fun k : ℕ => overlapStart d₁ [d₂] + (k : ℚ) / 100).length = 100 ∧
        ∀ t ∈ (List.range 100).map fun k : ℕ => overlapStart d₁ [d₂] + (k : ℚ) / 100,
          overlapStart d₁ [d₂] ≤ t ∧ t ≤ overlapEnd d₁ [d₂]) ∧
    ∀ (d : DeviceStream) (ds : List DeviceStream) (rate : ℚ),
      overlapEnd d ds - overlapStart d ds < 1 / rate →
      alignStreams d ds rate = .error .NoOverlap := by
  constructor
  · intro d₁ d₂ hdur
    have hcond : ¬ (overlapEnd d₁ [d₂] - overlapStart d₁ [d₂] < 1 / (100 : ℚ)) := by
      rw [hdur]; norm_num
    have hcount :
        (⌈(overlapEnd d₁ [d₂] - overlapStart d₁ [d₂]) * (100 : ℚ)⌉).toNat = 100 := by
      rw [hdur]; norm_num; rfl
    refine ⟨?_, by rw [List.length_map, List.length_range], ?_⟩
    · simp only [alignStreams, hcond, if_false, hcount]
    · intro t ht
      rw [List.mem_map] at ht
      obtain ⟨k, hkmem, rfl⟩ := ht
      rw [List.mem_range] at hkmem
      have hk' : (k : ℚ) ≤ 99 := by exact_mod_cast Nat.le_of_lt_succ hkmem
      have hknn : (0 : ℚ) ≤ (k : ℚ) := Nat.cast_nonneg k
      constructor
      · linarith
      · linarith
  · intro d ds rate hlt
    simp only [alignStreams, hlt, if_true]

/-- Witness for C7: the streams `[0, 2]` and `[0.5, 1.5]` overlap on
`[0.5, 1.5]`, a window of exactly one second, and alignment at 100 Hz
returns the 100 uniform instants; the single stream `[0, 1/200]` has a
window narrower than one 100 Hz frame and alignment fails with
`NoOverlap`. -/
theorem alignStreams_scenarioA_witness :
    overlapEnd ⟨0, 2⟩ [⟨1/2, 3/2⟩] - overlapStart ⟨0, 2⟩ [⟨1/2, 3/2⟩] = 1 ∧
      alignStreams ⟨0, 2⟩ [⟨1/2, 3/2⟩] 100 =
        .ok ((List.range 100).map
          fun k : ℕ => overlapStart ⟨0, 2⟩ [⟨1/2, 3/2⟩] + (k : ℚ) / 100) ∧
      overlapEnd ⟨0, 1/200⟩ ([] : List DeviceStream) -
          overlapStart ⟨0, 1/200⟩ ([] : List DeviceStream) < 1 / (100 : ℚ) ∧
      alignStreams ⟨0, 1/200⟩ ([] : List DeviceStream) 100 = .error .NoOverlap := by
  have hdur : overlapEnd ⟨0, 2⟩ [⟨1/2, 3/2⟩] - overlapStart ⟨0, 2⟩ [⟨1/2, 3/2⟩] = 1 := by
    norm_num [overlapStart, overlapEnd]
  have hnarrow : overlapEnd ⟨0, 1/200⟩ ([] : List DeviceStream) -
      overlapStart ⟨0, 1/200⟩ ([] : List DeviceStream) < 1 / (100 : ℚ) := by
    norm_num [overlapStart, overlapEnd]
  exact ⟨hdur, (alignStreams_scenarioA.1 ⟨0, 2⟩ ⟨1/2, 3/2⟩ hdur).1, hnarrow,
    alignStreams_scenarioA.2 ⟨0, 1/200⟩ [] 100 hnarrow⟩

end SymStride
